import Mathlib

/-!
Verification of the Seistrack Power Analysis pipeline (src/Seistrack_Daily.py).

The script's core pipeline — time cleaning, two-point linear calibration,
per-channel summary statistics, extrema location, range filtering and the
harvest-vs-grid split — is shallowly embedded here.  Numeric cell values are
modelled as rationals (ℚ); timestamps as integers (ℤ).  Python's
`ZeroDivisionError` and the crash sites of the script are modelled with
`Except`/`Option`: the embedding's `none`/`.error` marks exactly the inputs on
which the script raises.
-/

/-- One row after time normalisation (a row of `df_raw` past line 130):
a parsed timestamp and the three power channels in watts. -/
structure Rec where
  time : ℤ
  pv_w : ℚ
  meter_w : ℚ
  load_w : ℚ
deriving DecidableEq, Repr

/-- The raw value found in a row's Time cell before `pd.to_datetime`:
either parseable to a timestamp or unparseable text (e.g. the literal "N/A"). -/
inductive TimeCell where
  | valid (t : ℤ)
  | invalid (s : String)
deriving DecidableEq, Repr

/-- One row of the uploaded table after column renaming, before time parsing. -/
structure RawRow where
  cell : TimeCell
  pv_w : ℚ
  meter_w : ℚ
  load_w : ℚ
deriving DecidableEq, Repr

/-- Line 114: `pd.to_datetime(df_raw["Time"], errors="coerce")` — an
unparseable cell becomes the null marker `NaT` (here `none`) without raising;
a parseable cell becomes its timestamp. -/
def to_datetime_coerce : TimeCell → Option ℤ
  | .valid t => some t
  | .invalid _ => none

/-- Line 130: `df_raw.dropna(subset=["Time"], inplace=True)` — rows whose
coerced Time is null are removed entirely, all their channel values included. -/
def dropTimeNa (rows : List RawRow) : List Rec :=
  rows.filterMap fun r =>
    (to_datetime_coerce r.cell).map fun t => ⟨t, r.pv_w, r.meter_w, r.load_w⟩

/-- Lines 154-160: the calibration slope `m` and intercept `b` computed from the
two SEMS readings (`min_meter`, `max_meter`) and the two actual grid readings
(`min_actual`, `max_actual`).  When `max_meter - min_meter` is zero the Python
division raises `ZeroDivisionError`, which the `except` branch catches and
reports via `st.error`; `m`/`b` then stay unbound. -/
def compute_params (min_meter max_meter min_actual max_actual : ℚ) :
    Except String (ℚ × ℚ) :=
  if max_meter - min_meter = 0 then
    .error "Invalid input: Max and Min Meter Readings cannot be the same."
  else
    let m := (max_actual - min_actual) / (max_meter - min_meter)
    let b := min_actual - m * min_meter
    .ok (m, b)

/-- Line 165: `adjusted_value = m * reading_input + b`. -/
def evaluate (params : ℚ × ℚ) (x : ℚ) : ℚ :=
  params.1 * x + params.2

/-- Line 170: `df_raw["PV(W)"] = m * df_raw["PV(W)"] + b`. -/
def applyCalPV (params : ℚ × ℚ) (rs : List Rec) : List Rec :=
  rs.map fun r => { r with pv_w := params.1 * r.pv_w + params.2 }

/-- Line 171: `df_raw["Meter(W)"] = m * df_raw["Meter(W)"] + b`. -/
def applyCalMeter (params : ℚ × ℚ) (rs : List Rec) : List Rec :=
  rs.map fun r => { r with meter_w := params.1 * r.meter_w + params.2 }

/-- Line 172: `df_raw["Load(W)"] = m * df_raw["Load(W)"] + b`. -/
def applyCalLoad (params : ℚ × ℚ) (rs : List Rec) : List Rec :=
  rs.map fun r => { r with load_w := params.1 * r.load_w + params.2 }

/-- Lines 170-172 in sequence: the calibration applied to the whole table. -/
def applyCal (params : ℚ × ℚ) (rs : List Rec) : List Rec :=
  applyCalLoad params (applyCalMeter params (applyCalPV params rs))

/-- Lines 154-172 as one step.  When `compute_params` fails, the `except`
branch reports the error (line 160) but does not stop the script; the very
next use of `m` (line 165) then raises `NameError`, aborting the run before
any record is touched, so the whole step yields the reported error and the
calibration is never applied. -/
def calibrationSection (min_meter max_meter min_actual max_actual
    reading_input : ℚ) (rs : List Rec) : Except String (ℚ × List Rec) :=
  match compute_params min_meter max_meter min_actual max_actual with
  | .error e => .error e
  | .ok p => .ok (evaluate p reading_input, applyCal p rs)

/-- Pandas `.min()` of a series: `NaN` (here `none`) on an empty series,
otherwise the least element. -/
def seriesMin {α : Type} [LinearOrder α] : List α → Option α
  | [] => none
  | x :: xs => some (xs.foldl min x)

/-- Pandas `.max()` of a series: `NaN` (here `none`) on an empty series,
otherwise the greatest element. -/
def seriesMax {α : Type} [LinearOrder α] : List α → Option α
  | [] => none
  | x :: xs => some (xs.foldl max x)

/-- Pandas `.mean()` of a series: `NaN` (here `none`) on an empty series,
otherwise the sum divided by the length. -/
def seriesMean (xs : List ℚ) : Option ℚ :=
  if xs = [] then none else some (xs.sum / xs.length)

/-- One channel's block of lines 201-214: total (pandas `.sum()`, 0 on an
empty series), min, max and mean of the given kilowatt series. -/
structure ChannelSummary where
  total : ℚ
  min : Option ℚ
  max : Option ℚ
  mean : Option ℚ
deriving DecidableEq, Repr

/-- The four statistics of lines 201-214 computed on one kilowatt series. -/
def summarize (xs : List ℚ) : ChannelSummary :=
  ⟨xs.sum, seriesMin xs, seriesMax xs, seriesMean xs⟩

/-- Line 197: `df_plot["PV_KW"] = df_plot["PV(W)"] / 1000`. -/
def pv_kw (rs : List Rec) : List ℚ :=
  rs.map fun r => r.pv_w / 1000

/-- Line 198: `df_plot["Load_KW"] = df_plot["Load(W)"] / 1000`. -/
def load_kw (rs : List Rec) : List ℚ :=
  rs.map fun r => r.load_w / 1000

/-- Line 199: `df_plot["Meter_KW_abs"] = df_plot["Meter(W)"].abs() / 1000` —
the absolute value is taken per record, before any statistic. -/
def meter_kw_abs (rs : List Rec) : List ℚ :=
  rs.map fun r => |r.meter_w| / 1000

/-- The three channel summaries of lines 201-214. -/
structure DailySummary where
  pv : ChannelSummary
  load : ChannelSummary
  meter : ChannelSummary
deriving DecidableEq, Repr

/-- Lines 201-214: PV and Load statistics on the signed kilowatt columns,
Meter statistics on the absolute-value kilowatt column. -/
def summaryStats (rs : List Rec) : DailySummary :=
  ⟨summarize (pv_kw rs), summarize (load_kw rs), summarize (meter_kw_abs rs)⟩

/-- Line 217: `df_plot["Time"].min()` — the representative date is the minimum
timestamp of the record set (`NaT`, here `none`, when it is empty). -/
def data_date (rs : List Rec) : Option ℤ :=
  seriesMin (rs.map fun r => r.time)

/-- Lines 197-217 in script order: the summary statistics are computed first,
unconditionally; then line 217 formats the minimum timestamp with `strftime`,
which on an empty record set is `NaT.strftime(...)` and raises `ValueError`,
aborting the run at that point. -/
def summarySection (rs : List Rec) : Except String (DailySummary × ℤ) :=
  let s := summaryStats rs
  match data_date rs with
  | none => .error "NaTType does not support strftime"
  | some d => .ok (s, d)

/-- The three power channels of a record. -/
inductive Channel where
  | pv
  | meter
  | load
deriving DecidableEq, Repr

/-- The signed column value of a channel, as read by
`df_plot.loc[idx, col]` (lines 302 and 304). -/
def Channel.value : Channel → Rec → ℚ
  | .pv, r => r.pv_w
  | .meter, r => r.meter_w
  | .load, r => r.load_w

/-- The key the extremum search ranks by (lines 295-300): the absolute value
for the Meter channel (`df_plot[col].abs().idxmax()/.idxmin()`), the signed
value for PV and Load (`df_plot[col].idxmax()/.idxmin()`). -/
def chKey : Channel → Rec → ℚ
  | .meter, r => |r.meter_w|
  | .pv, r => r.pv_w
  | .load, r => r.load_w

/-- Pandas `Series.idxmax` on a default integer index: the index of the first
occurrence of the maximum value; `none` on an empty series. -/
def idxmax (xs : List ℚ) : Option ℕ :=
  match seriesMax xs with
  | none => none
  | some m => some (xs.findIdx fun x => x = m)

/-- Pandas `Series.idxmin` on a default integer index: the index of the first
occurrence of the minimum value; `none` on an empty series. -/
def idxmin (xs : List ℚ) : Option ℕ :=
  match seriesMin xs with
  | none => none
  | some m => some (xs.findIdx fun x => x = m)

/-- Lines 294-304: the annotated max and min points of one channel.  The
ranking key is `chKey` (absolute value for Meter only); the reported point is
`(Time, signed column value)` at the located row. -/
def extrema (rs : List Rec) (c : Channel) : Option ((ℤ × ℚ) × (ℤ × ℚ)) :=
  match idxmax (rs.map (chKey c)), idxmin (rs.map (chKey c)) with
  | some i, some j =>
    match rs[i]?, rs[j]? with
    | some rmax, some rmin =>
      some ((rmax.time, c.value rmax), (rmin.time, c.value rmin))
    | _, _ => none
  | _, _ => none

/-- Lines 347/356/365: `df_plot[(df_plot[col] >= lower) & (df_plot[col] <= upper)]`
— the records whose channel value lies in the closed interval. -/
def filter_range (rs : List Rec) (c : Channel) (lower upper : ℚ) : List Rec :=
  rs.filter fun r => decide (lower ≤ c.value r) && decide (c.value r ≤ upper)

/-- Lines 393-400: the rows with `Time` in the closed slider interval, then
`total_pv = Σ PV(W) / 1000`, `total_meter_abs = Σ |Meter(W)| / 1000`, and
`total_load = total_pv + total_meter_abs`.  Line 395-396: an empty selection
yields the warning branch (here `none`) instead of totals. -/
def harvest_grid_split (rs : List Rec) (a b : ℤ) : Option (ℚ × ℚ × ℚ) :=
  let sel := rs.filter fun r => decide (a ≤ r.time) && decide (r.time ≤ b)
  if sel.isEmpty then none
  else
    let total_pv := (sel.map fun r => r.pv_w).sum / 1000
    let total_meter_abs := (sel.map fun r => |r.meter_w|).sum / 1000
    some (total_pv, total_meter_abs, total_pv + total_meter_abs)

/-! ### Helper lemmas about the series statistics -/

theorem foldl_max_le_init {α : Type} [LinearOrder α] (xs : List α) (a : α) :
    a ≤ xs.foldl max a := by
  induction xs generalizing a with
  | nil => exact le_refl a
  | cons x l ih => exact le_trans (le_max_left a x) (ih (max a x))

theorem le_foldl_max {α : Type} [LinearOrder α] (xs : List α) (a : α) :
    ∀ y ∈ xs, y ≤ xs.foldl max a := by
  induction xs generalizing a with
  | nil => intro y hy; cases hy
  | cons x l ih =>
    intro y hy
    rcases List.mem_cons.mp hy with rfl | hy
    · exact le_trans (le_max_right a y) (foldl_max_le_init l (max a y))
    · exact ih (max a x) y hy

theorem foldl_max_mem {α : Type} [LinearOrder α] (xs : List α) (a : α) :
    xs.foldl max a = a ∨ xs.foldl max a ∈ xs := by
  induction xs generalizing a with
  | nil => exact Or.inl rfl
  | cons x l ih =>
    rcases ih (max a x) with h | h
    · rcases max_choice a x with hm | hm
      · exact Or.inl (by rw [List.foldl_cons, h, hm])
      · exact Or.inr (by rw [List.foldl_cons, h, hm]; exact List.mem_cons_self x l)
    · exact Or.inr (List.mem_cons_of_mem x h)

theorem foldl_min_init_le {α : Type} [LinearOrder α] (xs : List α) (a : α) :
    xs.foldl min a ≤ a := by
  induction xs generalizing a with
  | nil => exact le_refl a
  | cons x l ih => exact le_trans (ih (min a x)) (min_le_left a x)

theorem foldl_min_le {α : Type} [LinearOrder α] (xs : List α) (a : α) :
    ∀ y ∈ xs, xs.foldl min a ≤ y := by
  induction xs generalizing a with
  | nil => intro y hy; cases hy
  | cons x l ih =>
    intro y hy
    rcases List.mem_cons.mp hy with rfl | hy
    · exact le_trans (foldl_min_init_le l (min a y)) (min_le_right a y)
    · exact ih (min a x) y hy

theorem foldl_min_mem {α : Type} [LinearOrder α] (xs : List α) (a : α) :
    xs.foldl min a = a ∨ xs.foldl min a ∈ xs := by
  induction xs generalizing a with
  | nil => exact Or.inl rfl
  | cons x l ih =>
    rcases ih (min a x) with h | h
    · rcases min_choice a x with hm | hm
      · exact Or.inl (by rw [List.foldl_cons, h, hm])
      · exact Or.inr (by rw [List.foldl_cons, h, hm]; exact List.mem_cons_self x l)
    · exact Or.inr (List.mem_cons_of_mem x h)

theorem seriesMax_spec {α : Type} [LinearOrder α] (xs : List α) (h : xs ≠ []) :
    ∃ m, seriesMax xs = some m ∧ m ∈ xs ∧ ∀ y ∈ xs, y ≤ m := by
  match xs with
  | [] => exact absurd rfl h
  | x :: l =>
    refine ⟨l.foldl max x, rfl, ?_, ?_⟩
    · rcases foldl_max_mem l x with hm | hm
      · rw [hm]; exact List.mem_cons_self x l
      · exact List.mem_cons_of_mem x hm
    · intro y hy
      rcases List.mem_cons.mp hy with rfl | hy
      · exact foldl_max_le_init l y
      · exact le_foldl_max l x y hy

theorem seriesMin_spec {α : Type} [LinearOrder α] (xs : List α) (h : xs ≠ []) :
    ∃ m, seriesMin xs = some m ∧ m ∈ xs ∧ ∀ y ∈ xs, m ≤ y := by
  match xs with
  | [] => exact absurd rfl h
  | x :: l =>
    refine ⟨l.foldl min x, rfl, ?_, ?_⟩
    · rcases foldl_min_mem l x with hm | hm
      · rw [hm]; exact List.mem_cons_self x l
      · exact List.mem_cons_of_mem x hm
    · intro y hy
      rcases List.mem_cons.mp hy with rfl | hy
      · exact foldl_min_init_le l y
      · exact foldl_min_le l x y hy

theorem sum_map_div {β : Type} (l : List β) (f : β → ℚ) (c : ℚ) :
    (l.map fun x => f x / c).sum = (l.map f).sum / c := by
  induction l with
  | nil => simp
  | cons x t ih => simp [ih, add_div]

theorem idxmax_spec (xs : List ℚ) (h : xs ≠ []) :
    ∃ i, idxmax xs = some i ∧ ∃ hi : i < xs.length,
      (∀ k (hk : k < xs.length), xs[k] ≤ xs[i]) ∧
      ∀ k (hk : k < xs.length), k < i → xs[k] < xs[i] := by
  obtain ⟨m, hsm, hmem, hub⟩ := seriesMax_spec xs h
  have hex : ∃ x ∈ xs, (fun x => decide (x = m)) x := ⟨m, hmem, by simp⟩
  have hlt : xs.findIdx (fun x => decide (x = m)) < xs.length :=
    List.findIdx_lt_length_of_exists hex
  have hval : xs[xs.findIdx (fun x => decide (x = m))] = m :=
    of_decide_eq_true (List.findIdx_getElem (w := hlt))
  refine ⟨xs.findIdx (fun x => decide (x = m)), ?_, hlt, ?_, ?_⟩
  · unfold idxmax
    rw [hsm]
  · intro k hk
    rw [hval]
    exact hub _ (List.getElem_mem hk)
  · intro k hk hki
    have hne : ¬ (xs[k] = m) :=
      of_decide_eq_false (List.not_of_lt_findIdx hki)
    rw [hval]
    exact lt_of_le_of_ne (hub _ (List.getElem_mem hk)) hne

theorem idxmin_spec (xs : List ℚ) (h : xs ≠ []) :
    ∃ i, idxmin xs = some i ∧ ∃ hi : i < xs.length,
      (∀ k (hk : k < xs.length), xs[i] ≤ xs[k]) ∧
      ∀ k (hk : k < xs.length), k < i → xs[i] < xs[k] := by
  obtain ⟨m, hsm, hmem, hlb⟩ := seriesMin_spec xs h
  have hex : ∃ x ∈ xs, (fun x => decide (x = m)) x := ⟨m, hmem, by simp⟩
  have hlt : xs.findIdx (fun x => decide (x = m)) < xs.length :=
    List.findIdx_lt_length_of_exists hex
  have hval : xs[xs.findIdx (fun x => decide (x = m))] = m :=
    of_decide_eq_true (List.findIdx_getElem (w := hlt))
  refine ⟨xs.findIdx (fun x => decide (x = m)), ?_, hlt, ?_, ?_⟩
  · unfold idxmin
    rw [hsm]
  · intro k hk
    rw [hval]
    exact hlb _ (List.getElem_mem hk)
  · intro k hk hki
    have hne : ¬ (xs[k] = m) :=
      of_decide_eq_false (List.not_of_lt_findIdx hki)
    rw [hval]
    exact lt_of_le_of_ne (hlb _ (List.getElem_mem hk)) (Ne.symm hne)

/-! ### The claims -/

/-- Claim C1: for every choice of reference points with
`min_meter ≠ max_meter`, `compute_params` returns
`scale = (max_actual - min_actual) / (max_meter - min_meter)` and
`offset = min_actual - scale * min_meter`, and `evaluate` of these params is
exact at both reference points. -/
theorem C1_calibration_exact (min_meter max_meter min_actual max_actual : ℚ)
    (h : min_meter ≠ max_meter) :
    ∃ scale offset,
      compute_params min_meter max_meter min_actual max_actual = .ok (scale, offset) ∧
      scale = (max_actual - min_actual) / (max_meter - min_meter) ∧
      offset = min_actual - scale * min_meter ∧
      evaluate (scale, offset) min_meter = min_actual ∧
      evaluate (scale, offset) max_meter = max_actual := by
  have hne : max_meter - min_meter ≠ 0 := sub_ne_zero.mpr (Ne.symm h)
  refine ⟨(max_actual - min_actual) / (max_meter - min_meter),
    min_actual - (max_actual - min_actual) / (max_meter - min_meter) * min_meter,
    ?_, rfl, rfl, ?_, ?_⟩
  · unfold compute_params
    rw [if_neg hne]
  · simp only [evaluate]
    ring
  · simp only [evaluate]
    field_simp
    ring

/-- Witness for C1 at the reference pair (0, 200) → (0, 180) from the spec's
worked example: scale 0.9, offset 0, exact at both endpoints. -/
theorem C1_calibration_exact_witness :
    (0 : ℚ) ≠ 200 ∧
    ∃ scale offset,
      compute_params 0 200 0 180 = .ok (scale, offset) ∧
      scale = (180 - 0) / (200 - 0) ∧
      offset = 0 - scale * 0 ∧
      evaluate (scale, offset) 0 = 0 ∧
      evaluate (scale, offset) 200 = 180 :=
  ⟨by decide, C1_calibration_exact 0 200 0 180 (by decide)⟩

/-- Claim C2: the calibration of lines 170-172 replaces each of the three
channels of every record by `scale * value + offset` with the one shared
`(scale, offset)` pair — the identical linear map `evaluate params` on PV,
Meter and Load alike, with the timestamp untouched. -/
theorem C2_shared_linear_map (params : ℚ × ℚ) (rs : List Rec) :
    applyCal params rs = rs.map fun r =>
      ⟨r.time, evaluate params r.pv_w, evaluate params r.meter_w,
       evaluate params r.load_w⟩ := by
  simp only [applyCal, applyCalLoad, applyCalMeter, applyCalPV, List.map_map]
  rfl

/-- Claim C3: when the two reference inputs coincide, `compute_params` fails
with the degenerate-calibration error (the caught `ZeroDivisionError` of line
159), the condition is reported rather than silently defaulted, and the whole
calibration step halts with that error: no calibrated records are produced. -/
theorem C3_degenerate_calibration (v min_actual max_actual reading : ℚ)
    (rs : List Rec) :
    compute_params v v min_actual max_actual =
      .error "Invalid input: Max and Min Meter Readings cannot be the same." ∧
    calibrationSection v v min_actual max_actual reading rs =
      .error "Invalid input: Max and Min Meter Readings cannot be the same." := by
  have h : compute_params v v min_actual max_actual =
      .error "Invalid input: Max and Min Meter Readings cannot be the same." := by
    unfold compute_params
    rw [if_pos (sub_self v)]
  refine ⟨h, ?_⟩
  unfold calibrationSection
  rw [h]

theorem summarize_channel (rs : List Rec) (f : Rec → ℚ) (h : rs ≠ []) :
    (summarize (rs.map fun r => f r / 1000)).total = (rs.map f).sum / 1000 ∧
    (summarize (rs.map fun r => f r / 1000)).mean =
      some ((rs.map f).sum / 1000 / rs.length) ∧
    (∃ r ∈ rs, (summarize (rs.map fun r => f r / 1000)).max = some (f r / 1000) ∧
      ∀ q ∈ rs, f q / 1000 ≤ f r / 1000) ∧
    (∃ r ∈ rs, (summarize (rs.map fun r => f r / 1000)).min = some (f r / 1000) ∧
      ∀ q ∈ rs, f r / 1000 ≤ f q / 1000) := by
  have hmap : rs.map (fun r => f r / 1000) ≠ [] := by simpa using h
  refine ⟨sum_map_div rs f 1000, ?_, ?_, ?_⟩
  · show seriesMean _ = _
    unfold seriesMean
    rw [if_neg hmap, sum_map_div, List.length_map]
  · obtain ⟨m, hsm, hmem, hub⟩ := seriesMax_spec _ hmap
    obtain ⟨r, hr, hrm⟩ := List.mem_map.mp hmem
    refine ⟨r, hr, ?_, ?_⟩
    · show seriesMax _ = _
      rw [hsm, hrm]
    · intro q hq
      rw [hrm]
      exact hub _ (List.mem_map_of_mem _ hq)
  · obtain ⟨m, hsm, hmem, hlb⟩ := seriesMin_spec _ hmap
    obtain ⟨r, hr, hrm⟩ := List.mem_map.mp hmem
    refine ⟨r, hr, ?_, ?_⟩
    · show seriesMin _ = _
      rw [hsm, hrm]
    · intro q hq
      rw [hrm]
      exact hlb _ (List.mem_map_of_mem _ hq)

/-- Claim C4: the summary block computes total, min, max and mean per channel
in kilowatts; the Meter channel applies `abs` to each record before all four
statistics (so the Meter total is the sum of `|meter_w| / 1000`), while PV and
Load use the signed values directly. -/
theorem C4_summary_channels (rs : List Rec) (h : rs ≠ []) :
    ((summaryStats rs).meter.total = (rs.map fun r => |r.meter_w|).sum / 1000 ∧
     (summaryStats rs).meter.mean =
       some ((rs.map fun r => |r.meter_w|).sum / 1000 / rs.length) ∧
     (∃ r ∈ rs, (summaryStats rs).meter.max = some (|r.meter_w| / 1000) ∧
       ∀ q ∈ rs, |q.meter_w| / 1000 ≤ |r.meter_w| / 1000) ∧
     (∃ r ∈ rs, (summaryStats rs).meter.min = some (|r.meter_w| / 1000) ∧
       ∀ q ∈ rs, |r.meter_w| / 1000 ≤ |q.meter_w| / 1000)) ∧
    ((summaryStats rs).pv.total = (rs.map fun r => r.pv_w).sum / 1000 ∧
     (summaryStats rs).pv.mean =
       some ((rs.map fun r => r.pv_w).sum / 1000 / rs.length) ∧
     (∃ r ∈ rs, (summaryStats rs).pv.max = some (r.pv_w / 1000) ∧
       ∀ q ∈ rs, q.pv_w / 1000 ≤ r.pv_w / 1000) ∧
     (∃ r ∈ rs, (summaryStats rs).pv.min = some (r.pv_w / 1000) ∧
       ∀ q ∈ rs, r.pv_w / 1000 ≤ q.pv_w / 1000)) ∧
    ((summaryStats rs).load.total = (rs.map fun r => r.load_w).sum / 1000 ∧
     (summaryStats rs).load.mean =
       some ((rs.map fun r => r.load_w).sum / 1000 / rs.length) ∧
     (∃ r ∈ rs, (summaryStats rs).load.max = some (r.load_w / 1000) ∧
       ∀ q ∈ rs, q.load_w / 1000 ≤ r.load_w / 1000) ∧
     (∃ r ∈ rs, (summaryStats rs).load.min = some (r.load_w / 1000) ∧
       ∀ q ∈ rs, r.load_w / 1000 ≤ q.load_w / 1000)) :=
  ⟨summarize_channel rs (fun r => |r.meter_w|) h,
   summarize_channel rs (fun r => r.pv_w) h,
   summarize_channel rs (fun r => r.load_w) h⟩

/-- Witness for C4 on a one-record set: Meter total is `|-2000| / 1000 = 2`
while the PV total keeps the sign convention, `1000 / 1000 = 1`. -/
theorem C4_summary_channels_witness :
    (summaryStats [⟨0, 1000, -2000, 3000⟩]).meter.total = 2 ∧
    (summaryStats [⟨0, 1000, -2000, 3000⟩]).pv.total = 1 := by
  have hc := C4_summary_channels [⟨0, 1000, -2000, 3000⟩] (by decide)
  refine ⟨?_, ?_⟩
  · rw [hc.1.1]
    simp
    norm_num
  · rw [hc.2.1.1]
    simp

/-- Counterexample to claim C5: one unparseable-Time row leaves zero surviving
records, yet the run is not halted before the summary block — the summaries
are still computed (totals 0, min/max/mean the null value) and the
representative-date step itself is reached, failing there. -/
theorem C5_counterexample :
    dropTimeNa [⟨.invalid "N/A", 1, 2, 3⟩] = [] ∧
    summaryStats (dropTimeNa [⟨.invalid "N/A", 1, 2, 3⟩]) =
      ⟨⟨0, none, none, none⟩, ⟨0, none, none, none⟩, ⟨0, none, none, none⟩⟩ ∧
    summarySection (dropTimeNa [⟨.invalid "N/A", 1, 2, 3⟩]) =
      .error "NaTType does not support strftime" :=
  ⟨rfl, rfl, rfl⟩

/-- Claim C5 as amended: the representative date is the minimum timestamp of
the record set, but the pipeline has no stop-if-no-valid-rows guard — on a
non-empty set the summary section succeeds with that date, and on an empty set
the summaries are still computed and the run only aborts at the
representative-date formatting step. -/
theorem C5_representative_date (rs : List Rec) :
    (rs ≠ [] → ∃ d, data_date rs = some d ∧ (∀ r ∈ rs, d ≤ r.time) ∧
      (∃ r ∈ rs, r.time = d) ∧
      summarySection rs = .ok (summaryStats rs, d)) ∧
    (rs = [] →
      summarySection rs = .error "NaTType does not support strftime") := by
  constructor
  · intro h
    have hne : rs.map (fun r => r.time) ≠ [] := by simpa using h
    obtain ⟨d, hsd, hmem, hlb⟩ := seriesMin_spec (rs.map fun r => r.time) hne
    obtain ⟨r, hr, hrt⟩ := List.mem_map.mp hmem
    refine ⟨d, hsd, ?_, ⟨r, hr, hrt⟩, ?_⟩
    · intro q hq
      exact hlb _ (List.mem_map_of_mem _ hq)
    · simp [summarySection, data_date, hsd]
  · intro h
    subst h
    rfl

/-- Witness for C5 as amended: on a one-record set the representative date is
produced, while on the empty set the summary section aborts. -/
theorem C5_representative_date_witness :
    (∃ d, data_date [(⟨5, 1, 2, 3⟩ : Rec)] = some d) ∧
    summarySection ([] : List Rec) =
      .error "NaTType does not support strftime" := by
  obtain ⟨d, hd, -, -, -⟩ :=
    (C5_representative_date [⟨5, 1, 2, 3⟩]).1 (by decide)
  exact ⟨⟨d, hd⟩, (C5_representative_date []).2 rfl⟩

/-- Claim C6: on every non-empty record set, the harvest-grid split taken over
the full timestamp range (minimum to maximum timestamp) yields a solar total
equal to the whole-series PV summary total and a grid total equal to the
whole-series absolute-Meter summary total, both in kilowatts. -/
theorem C6_harvest_full_range (rs : List Rec) (h : rs ≠ []) :
    ∃ tmin tmax,
      seriesMin (rs.map fun r => r.time) = some tmin ∧
      seriesMax (rs.map fun r => r.time) = some tmax ∧
      harvest_grid_split rs tmin tmax =
        some ((summaryStats rs).pv.total, (summaryStats rs).meter.total,
          (summaryStats rs).pv.total + (summaryStats rs).meter.total) := by
  have hne : rs.map (fun r => r.time) ≠ [] := by simpa using h
  obtain ⟨tmin, hmin, -, hlb⟩ := seriesMin_spec _ hne
  obtain ⟨tmax, hmax, -, hub⟩ := seriesMax_spec _ hne
  refine ⟨tmin, tmax, hmin, hmax, ?_⟩
  have hfilter : (rs.filter fun r =>
      decide (tmin ≤ r.time) && decide (r.time ≤ tmax)) = rs := by
    apply List.filter_eq_self.mpr
    intro r hr
    simp only [Bool.and_eq_true, decide_eq_true_eq]
    exact ⟨hlb _ (List.mem_map_of_mem _ hr), hub _ (List.mem_map_of_mem _ hr)⟩
  have hemp : rs.isEmpty = false := by
    simp [List.isEmpty_iff, h]
  simp only [harvest_grid_split, hfilter, hemp, Bool.false_eq_true, if_false,
    summaryStats, summarize, pv_kw, meter_kw_abs, sum_map_div]

/-- Witness for C6 on a two-record set spanning timestamps 1 to 4. -/
theorem C6_harvest_full_range_witness :
    ∃ tmin tmax,
      seriesMin (([⟨1, 1000, -2000, 0⟩, ⟨4, 3000, 500, 0⟩] : List Rec).map
        fun r => r.time) = some tmin ∧
      seriesMax (([⟨1, 1000, -2000, 0⟩, ⟨4, 3000, 500, 0⟩] : List Rec).map
        fun r => r.time) = some tmax ∧
      harvest_grid_split [⟨1, 1000, -2000, 0⟩, ⟨4, 3000, 500, 0⟩] tmin tmax =
        some ((summaryStats [⟨1, 1000, -2000, 0⟩, ⟨4, 3000, 500, 0⟩]).pv.total,
          (summaryStats [⟨1, 1000, -2000, 0⟩, ⟨4, 3000, 500, 0⟩]).meter.total,
          (summaryStats [⟨1, 1000, -2000, 0⟩, ⟨4, 3000, 500, 0⟩]).pv.total +
            (summaryStats [⟨1, 1000, -2000, 0⟩, ⟨4, 3000, 500, 0⟩]).meter.total) :=
  C6_harvest_full_range [⟨1, 1000, -2000, 0⟩, ⟨4, 3000, 500, 0⟩] (by decide)

/-- Claim C7: on every non-empty record set, `extrema` selects both the max
and the min point of the Meter channel by the absolute value of `meter_w`
(while PV and Load rank by the signed value, as the `chKey` equations
record), and on ties the first record in iteration order wins: every earlier
record has a strictly smaller ranking key. -/
theorem C7_extrema_first_tie (rs : List Rec) (c : Channel) (h : rs ≠ []) :
    (chKey Channel.meter = fun r => |r.meter_w|) ∧
    (chKey Channel.pv = fun r => r.pv_w) ∧
    (chKey Channel.load = fun r => r.load_w) ∧
    ∃ i j, ∃ hi : i < rs.length, ∃ hj : j < rs.length,
      extrema rs c = some ((rs[i].time, c.value rs[i]),
                           (rs[j].time, c.value rs[j])) ∧
      (∀ k (hk : k < rs.length), chKey c rs[k] ≤ chKey c rs[i]) ∧
      (∀ k (hk : k < rs.length), k < i → chKey c rs[k] < chKey c rs[i]) ∧
      (∀ k (hk : k < rs.length), chKey c rs[j] ≤ chKey c rs[k]) ∧
      (∀ k (hk : k < rs.length), k < j → chKey c rs[j] < chKey c rs[k]) := by
  refine ⟨rfl, rfl, rfl, ?_⟩
  have hmap : rs.map (chKey c) ≠ [] := by simpa using h
  obtain ⟨i, hidxmax, hi, humax, hsmax⟩ := idxmax_spec _ hmap
  obtain ⟨j, hidxmin, hj, humin, hsmin⟩ := idxmin_spec _ hmap
  have hi2 : i < rs.length := by simpa using hi
  have hj2 : j < rs.length := by simpa using hj
  refine ⟨i, j, hi2, hj2, ?_, ?_, ?_, ?_, ?_⟩
  · unfold extrema
    rw [hidxmax, hidxmin]
    simp [List.getElem?_eq_getElem hi2, List.getElem?_eq_getElem hj2]
  · intro k hk
    have hx := humax k (by simpa using hk)
    simpa using hx
  · intro k hk hki
    have hx := hsmax k (by simpa using hk) hki
    simpa using hx
  · intro k hk
    have hx := humin k (by simpa using hk)
    simpa using hx
  · intro k hk hkj
    have hx := hsmin k (by simpa using hk) hkj
    simpa using hx

/-- Witness for C7 on a two-record set whose Meter values tie in absolute
value: the first record wins both extrema. -/
theorem C7_extrema_first_tie_witness :
    ∃ i j, ∃ hi : i < ([⟨10, 1, -5, 2⟩, ⟨20, 3, 5, 4⟩] : List Rec).length,
      ∃ hj : j < ([⟨10, 1, -5, 2⟩, ⟨20, 3, 5, 4⟩] : List Rec).length,
      extrema [⟨10, 1, -5, 2⟩, ⟨20, 3, 5, 4⟩] Channel.meter =
        some ((([⟨10, 1, -5, 2⟩, ⟨20, 3, 5, 4⟩] : List Rec)[i].time,
               Channel.meter.value ([⟨10, 1, -5, 2⟩, ⟨20, 3, 5, 4⟩] : List Rec)[i]),
              (([⟨10, 1, -5, 2⟩, ⟨20, 3, 5, 4⟩] : List Rec)[j].time,
               Channel.meter.value ([⟨10, 1, -5, 2⟩, ⟨20, 3, 5, 4⟩] : List Rec)[j])) := by
  obtain ⟨-, -, -, i, j, hi, hj, he, -⟩ :=
    C7_extrema_first_tie [⟨10, 1, -5, 2⟩, ⟨20, 3, 5, 4⟩] Channel.meter (by decide)
  exact ⟨i, j, hi, hj, he⟩

/-- Claim C8: a row whose Time cell cannot be parsed becomes a null marker
without raising (the coercion is total and yields `none`) and is then dropped
entirely — its PV, Meter and Load values included — so removing it leaves
every downstream record set unchanged, and every surviving record corresponds
to a row whose Time cell did parse. -/
theorem C8_unparseable_rows_dropped (pre post : List RawRow) (bad : RawRow)
    (h : to_datetime_coerce bad.cell = none) :
    (∀ s, to_datetime_coerce (.invalid s) = none) ∧
    dropTimeNa (pre ++ bad :: post) = dropTimeNa (pre ++ post) ∧
    ∀ r ∈ dropTimeNa (pre ++ bad :: post),
      ∃ raw, (raw ∈ pre ∨ raw ∈ post) ∧
        to_datetime_coerce raw.cell = some r.time ∧
        raw.pv_w = r.pv_w ∧ raw.meter_w = r.meter_w ∧ raw.load_w = r.load_w := by
  have heq : dropTimeNa (pre ++ bad :: post) = dropTimeNa (pre ++ post) := by
    unfold dropTimeNa
    rw [List.filterMap_append, List.filterMap_append, List.filterMap_cons, h]
    rfl
  refine ⟨fun s => rfl, heq, ?_⟩
  intro r hr
  rw [heq] at hr
  unfold dropTimeNa at hr
  obtain ⟨raw, hrawmem, hrw⟩ := List.mem_filterMap.mp hr
  obtain ⟨t, ht, hrec⟩ := Option.map_eq_some'.mp hrw
  refine ⟨raw, List.mem_append.mp hrawmem, ?_, ?_, ?_, ?_⟩
  · rw [ht, ← hrec]
  · rw [← hrec]
  · rw [← hrec]
  · rw [← hrec]

/-- Witness for C8: appending an unparseable "N/A" row leaves the cleaned
record set unchanged. -/
theorem C8_unparseable_rows_dropped_witness :
    dropTimeNa ([⟨.valid 1, 10, 20, 30⟩] ++ (⟨.invalid "N/A", 7, 8, 9⟩ : RawRow) :: []) =
      dropTimeNa ([⟨.valid 1, 10, 20, 30⟩] ++ []) :=
  (C8_unparseable_rows_dropped [⟨.valid 1, 10, 20, 30⟩] []
    ⟨.invalid "N/A", 7, 8, 9⟩ rfl).2.1

/-- Claim C9: `filter_range` returns exactly the records whose channel value
lies in the closed interval (it is a sublist of the input and membership is
characterised by the bounds); whenever the lower bound exceeds the upper the
result is the empty list — a valid value returned, never an error. -/
theorem C9_filter_range_closed (rs : List Rec) (c : Channel) (lower upper : ℚ) :
    (∀ r, r ∈ filter_range rs c lower upper ↔
      r ∈ rs ∧ lower ≤ c.value r ∧ c.value r ≤ upper) ∧
    List.Sublist (filter_range rs c lower upper) rs ∧
    (upper < lower → filter_range rs c lower upper = []) := by
  refine ⟨?_, List.filter_sublist rs, ?_⟩
  · intro r
    simp [filter_range, List.mem_filter, and_assoc]
  · intro hul
    unfold filter_range
    rw [List.filter_eq_nil_iff]
    intro r hr
    simp only [Bool.and_eq_true, decide_eq_true_eq, not_and]
    intro hl hu
    exact absurd (hl.trans hu) (not_le.mpr hul)

/-- Witness for C9: an inverted interval filters everything out, while a
proper interval keeps the record whose value lies inside it. -/
theorem C9_filter_range_closed_witness :
    filter_range [(⟨0, 1, 2, 3⟩ : Rec)] Channel.pv 5 3 = [] ∧
    (⟨0, 1, 2, 3⟩ : Rec) ∈ filter_range [(⟨0, 1, 2, 3⟩ : Rec)] Channel.pv 0 2 := by
  refine ⟨(C9_filter_range_closed [⟨0, 1, 2, 3⟩] Channel.pv 5 3).2.2 (by norm_num), ?_⟩
  exact ((C9_filter_range_closed [⟨0, 1, 2, 3⟩] Channel.pv 0 2).1 _).mpr
    ⟨List.mem_cons_self _ _, by norm_num [Channel.value], by norm_num [Channel.value]⟩

/-- Claim C10: in the harvest-vs-grid split the reported total load is exactly
`solar + grid` by construction, and the Load channel is never read: replacing
every record's `load_w` by anything at all leaves the whole split unchanged. -/
theorem C10_load_is_solar_plus_grid (rs : List Rec) (a b : ℤ) (g : Rec → ℚ) :
    (∀ p m l, harvest_grid_split rs a b = some (p, m, l) → l = p + m) ∧
    harvest_grid_split (rs.map fun r => { r with load_w := g r }) a b =
      harvest_grid_split rs a b := by
  constructor
  · intro p m l hsome
    unfold harvest_grid_split at hsome
    by_cases hemp : (rs.filter fun r =>
        decide (a ≤ r.time) && decide (r.time ≤ b)).isEmpty
    · simp [hemp] at hsome
    · simp only [hemp, Bool.false_eq_true, if_false, Option.some.injEq,
        Prod.mk.injEq] at hsome
      rw [← hsome.1, ← hsome.2.1, ← hsome.2.2]
  · unfold harvest_grid_split
    have hfil : ((rs.map fun r => { r with load_w := g r }).filter fun r =>
        decide (a ≤ r.time) && decide (r.time ≤ b)) =
        (rs.filter fun r => decide (a ≤ r.time) && decide (r.time ≤ b)).map
          fun r => { r with load_w := g r } := by
      rw [List.filter_map]
      rfl
    rw [hfil]
    cases hsel : rs.filter fun r => decide (a ≤ r.time) && decide (r.time ≤ b) with
    | nil => rfl
    | cons x t =>
      simp only [List.map_map]
      rfl

/-- Witness for C10: on a concrete one-record set the split is
`(1, 2, 3)` with `3 = 1 + 2`. -/
theorem C10_load_is_solar_plus_grid_witness :
    harvest_grid_split [(⟨5, 1000, -2000, 7⟩ : Rec)] 0 10 = some (1, 2, 3) ∧
    (3 : ℚ) = 1 + 2 := by
  have h1 : harvest_grid_split [(⟨5, 1000, -2000, 7⟩ : Rec)] 0 10 =
      some (1, 2, 3) := by
    unfold harvest_grid_split
    norm_num [List.filter]
  exact ⟨h1,
    (C10_load_is_solar_plus_grid [⟨5, 1000, -2000, 7⟩] 0 10 fun _ => 0).1 1 2 3 h1⟩
